import Mathlib

/-!
Verification of the leveler admin-command logic of Fixator10-Cogs
(`src/leveler/commands/lvladmin/users.py`), the pagination wrap of
`src/leveler/menus/base.py`, and `_humanize_number` of
`src/leveler/def_imgen_utils.py`, as a shallow embedding.

The Mongo document store is embedded as an association list keyed by
`str(user.id)`; a user document's `servers` map is an association list keyed
by `str(guild.id)`. Partial (`$set`, dotted-path) updates are embedded as
`aset`, which replaces the first binding of a key or appends a fresh one —
matching dict/Mongo semantics, where keys are unique.
-/

namespace F10

/-- Per-guild standing of a user: `servers[gid] = {"level": …, "current_exp": …}`. -/
structure GuildStanding where
  level : Int
  current_exp : Int
deriving DecidableEq

/-- A persisted user record (spec §3 data model; the fields touched by the
commands under verification). `chat_block` is a point in time in seconds,
embedded as an exact rational. -/
structure UserRecord where
  user_id : String
  total_exp : Int
  servers : List (String × GuildStanding)
  chat_block : Option Rat
deriving DecidableEq

/-- The user collection: `db.users`, keyed by `str(user.id)`. -/
abbrev Db := List (String × UserRecord)

/-- Dict lookup (`d.get(k)` / `find_one`): first binding of the key. -/
def alookup {β : Type} : List (String × β) → String → Option β
  | [], _ => none
  | (k, v) :: rest, key => if k = key then some v else alookup rest key

/-- Dict/Mongo `$set` on one key: replace the first binding, or append. -/
def aset {β : Type} : List (String × β) → String → β → List (String × β)
  | [], key, v => [(key, v)]
  | (k, w) :: rest, key, v =>
    if k = key then (key, v) :: rest else (k, w) :: aset rest key v

theorem alookup_aset_self {β : Type} (l : List (String × β)) (key : String) (v : β) :
    alookup (aset l key v) key = some v := by
  induction l with
  | nil => simp [aset, alookup]
  | cons hd tl ih =>
    obtain ⟨k, w⟩ := hd
    by_cases h : k = key <;> simp [aset, alookup, h, ih]

theorem alookup_aset_ne {β : Type} (l : List (String × β)) (key key' : String) (v : β)
    (h : key' ≠ key) : alookup (aset l key v) key' = alookup l key' := by
  induction l with
  | nil => simp [aset, alookup, Ne.symm h]
  | cons hd tl ih =>
    obtain ⟨k, w⟩ := hd
    by_cases hk : k = key
    · subst hk
      simp [aset, alookup, Ne.symm h]
    · simp only [aset, if_neg hk, alookup]
      by_cases hk' : k = key' <;> simp [hk', ih]

theorem aset_aset {β : Type} (l : List (String × β)) (key : String) (v w : β) :
    aset (aset l key v) key w = aset l key w := by
  induction l with
  | nil => simp [aset]
  | cons hd tl ih =>
    obtain ⟨k, u⟩ := hd
    by_cases h : k = key <;> simp [aset, h, ih]

/-- The `old_server_exp` accumulation loop of `Users.setlevel`
(users.py lines 106-108): the sum of `_required_exp i` for `i` in
`range(level)`, written as structural recursion so it mirrors the loop and
computes. `req` is the experience-curve collaborator `_required_exp`. -/
def cumExp (req : Nat → Int) : Nat → Int
  | 0 => 0
  | n + 1 => cumExp req n + req n

/-- Modelled from the spec: `_level_exp` (the experience-curve collaborator)
is not under src/. Spec §6: "`level_exp(level: int) -> int`: cumulative
experience needed to reach `level` from zero", with `required_exp(level)` the
experience needed to advance from `level` to `level+1`; hence the cumulative
sum of `required_exp i` for `i < level`. -/
def level_exp (req : Nat → Int) (level : Nat) : Int :=
  cumExp req level

/-- Modelled from the spec: `_create_user` is not under src/. Spec §3: "A
`UserRecord` is created lazily on first observed activity in a guild" by an
external "ensure user exists" collaborator; `Users.setlevel` (users.py line
98) invokes it, then reads `userinfo["servers"][str(server.id)]` without any
further guard, so the collaborator ensures both the record and the guild's
standing entry exist, created zeroed when absent and left untouched when
present. -/
def create_user (db : Db) (uid gid : String) : Db :=
  match alookup db uid with
  | none => aset db uid ⟨uid, 0, [(gid, ⟨0, 0⟩)], none⟩
  | some u =>
    match alookup u.servers gid with
    | none => aset db uid { u with servers := aset u.servers gid ⟨0, 0⟩ }
    | some _ => db

/-- What `Users.setlevel` reports back to the invoking administrator. -/
inductive SetlevelOutcome where
  /-- `user.bot`: the command sends its help text and stops (users.py 95-97). -/
  | botHelp
  /-- `level < 0`: "Please enter a positive number." and stop (users.py 101-103). -/
  | invalidLevel
  /-- level set, confirmation sent, `_handle_levelup` fired (users.py 118-132). -/
  | success
  /-- record or guild standing missing at the dict accesses of lines 107-110:
  Python would raise. Unreachable, because `_create_user` (line 98) has just
  ensured both exist. -/
  | keyError
deriving DecidableEq

/-- `Users.setlevel` (users.py lines 88-132), embedded as the effect on the
persisted user collection plus the reported outcome. `req` and `lvlExp` are
the experience-curve collaborators `_required_exp` and `_level_exp`;
`userIsBot` is `user.bot`. The in-memory mutations of `userinfo` (lines
109-116) only feed the single `update_one` write of lines 118-127, which sets
`servers.<gid>.level`, `servers.<gid>.current_exp` and `total_exp`. -/
def setlevel (req lvlExp : Nat → Int) (db : Db) (uid gid : String)
    (userIsBot : Bool) (level : Int) : Db × SetlevelOutcome :=
  if userIsBot then (db, .botHelp)
  else
    let db1 := create_user db uid gid
    match alookup db1 uid with
    | none => (db1, .keyError)
    | some u =>
      if level < 0 then (db1, .invalidLevel)
      else
        match alookup u.servers gid with
        | none => (db1, .keyError)
        | some st =>
          let old_server_exp := cumExp req st.level.toNat
          let total1 := u.total_exp - old_server_exp - st.current_exp
          let total2 := total1 + lvlExp level.toNat
          (aset db1 uid
            { u with total_exp := total2, servers := aset u.servers gid ⟨level, 0⟩ },
           .success)

/-- A Python value sitting at a top-level key of a user document. -/
inductive PyVal where
  | pint (n : Int)
  | pstr (s : String)
  | pfloat (q : Rat)
  | pservers (m : List (String × GuildStanding))
deriving DecidableEq

/-- The top-level Mongo document of a user record: its keys are exactly the
four field names of the data model. Guild standings live one level down,
inside the value at key "servers" — which is how `Users.setlevel` reads them
(`userinfo["servers"][str(server.id)]`, users.py line 107). -/
def UserRecord.doc (u : UserRecord) : List (String × PyVal) :=
  ("user_id", .pstr u.user_id) :: ("total_exp", .pint u.total_exp)
    :: ("servers", .pservers u.servers)
    :: (match u.chat_block with
        | none => []
        | some t => [("chat_block", .pfloat t)])

/-- The guild-contribution read of `Users.resetranks` (users.py lines 65-67):
`userinfo.get(str(ctx.guild.id), \x7b\x7d).get("current_exp", 0)`. The outer
`get` looks the guild id up among the TOP-LEVEL keys of the user document —
not inside `userinfo["servers"]`. Result `some c`: the read evaluates to the
integer `c`; result `none`: the chained call would raise in Python (`.get` on
an int/str/float, or subtracting a non-number). Since `str(ctx.guild.id)` is
a string of decimal digits, it never equals one of the four field names, the
outer `get` returns its default empty dict, and the read is `some 0`. -/
def currentExpTopLevel (u : UserRecord) (gid : String) : Option Int :=
  match alookup u.doc gid with
  | none => some 0
  | some (.pservers m) =>
    match alookup m "current_exp" with
    | none => some 0
    | some _ => none
  | some _ => none

/-- One iteration of the member loop of `Users.resetranks` (users.py lines
58-77): skip bots, skip members with no record, otherwise write `level = 0`
and `current_exp = 0` for this guild and `total_exp` minus the (top-level)
guild-contribution read. On the unreachable exception path the iteration
issues no write. -/
def resetMember (db : Db) (gid memberId : String) (memberIsBot : Bool) : Db :=
  if memberIsBot then db
  else
    match alookup db memberId with
    | none => db
    | some u =>
      match currentExpTopLevel u gid with
      | none => db
      | some c =>
        aset db memberId
          { u with total_exp := u.total_exp - c, servers := aset u.servers gid ⟨0, 0⟩ }

/-- `Users.xpban` (users.py lines 21-43), embedded as the effect on the user
collection: `chat_block = time.time() + bantime.total_seconds()` followed by
an `update_one` `$set` of that one field. `now` is the value the `time.time()`
call sampled from the host clock, `dur` is `bantime.total_seconds()`. A user
with no record is left untouched (the id path returns early after a failed
`find_one`; the member path issues an `update_one` that matches no document). -/
def xpban (db : Db) (uid : String) (now dur : Rat) : Db :=
  match alookup db uid with
  | none => db
  | some u => aset db uid { u with chat_block := some (now + dur) }

/-- The slice of `BaseView` state that the page-navigation methods touch
(menus/base.py): the current page index. -/
structure PageView where
  current_page : Int
deriving DecidableEq

/-- `BaseView.show_page` (menus/base.py lines 211-223): renders the requested
page and assigns `self.current_page = page_number` (line 221); only the
`current_page` assignment is ledger-visible state. -/
def show_page (v : PageView) (page_number : Int) : PageView :=
  { v with current_page := page_number }

/-- `BaseView.show_checked_page` (menus/base.py lines 225-239). `max_pages` is
`self._source.get_max_pages()` (`None` when the source reports no maximum).
The `except IndexError: pass` of lines 237-239 has no counterpart: the
embedded `show_page` always completes. -/
def show_checked_page (v : PageView) (max_pages : Option Int) (page_number : Int) : PageView :=
  match max_pages with
  | none => show_page v page_number
  | some m =>
    if m ≤ page_number then show_page v 0
    else if page_number < 0 then show_page v (m - 1)
    else show_page v page_number

/-- The return value of `_humanize_number`: the Python `int` 0 on the falsy
branch, a formatted string otherwise. -/
inductive HumanizeResult where
  | int (n : Int)
  | str (s : String)
deriving DecidableEq

/-- Whether a `_humanize_number` result is a string. -/
def HumanizeResult.isStr : HumanizeResult → Bool
  | .str _ => true
  | .int _ => false

/-- Whether a `_humanize_number` result is a string whose first character is
the minus sign. -/
def HumanizeResult.dashSigned : HumanizeResult → Bool
  | .str s =>
    match s.data with
    | [] => false
    | c :: _ => c = '-'
  | .int _ => false

/-- Exact-arithmetic model of the `:.0f` f-string formatting of
`number / k**magnitude` (def_imgen_utils.py line 163): divide and round half
to even, the rounding mode of float formatting. -/
def roundHalfEven (n d : Nat) : Nat :=
  let q := n / d
  let r := n % d
  if 2 * r < d then q
  else if d < 2 * r then q + 1
  else if q % 2 = 0 then q else q + 1

/-- `DefaultImageGeneratorsUtils._humanize_number` (def_imgen_utils.py lines
151-163). The magnitude computation `int(floor(log(number, 1000.0)))` runs in
IEEE-double arithmetic (the int-to-double conversion of `number` and the libm
logarithms), which a shallow embedding cannot reproduce; it is taken as the
parameter `mag`, standing for the function the host actually computes, so
every theorem below holds for an arbitrary `mag` and hence for the host's.
Near the `1000^6` threshold `mag` differs from the exact `Nat.log 1000`: all
magnitudes in `[10^18 - 64, 10^18)` convert to the double `1e18`, whose
computed log ratio is exactly 6.0, and land in the `>999Q` branch. The `:.0f`
formatting of `number / k**magnitude` is embedded as exact
round-half-to-even; the claims under verification depend on the branch taken
and the leading sign character, never on the formatted digits. -/
def _humanize_number (mag : Nat → Nat) (number : Int) : HumanizeResult :=
  if number = 0 then .int 0
  else
    let negative := if number < 0 then "-" else ""
    let n := number.natAbs
    let units : List String := ["", "K", "M", "B", "T", "Q"]
    let magnitude := mag n
    if units.length ≤ magnitude then .str (">999" ++ units.getLastD "")
    else .str (negative ++ Nat.repr (roundHalfEven n (1000 ^ magnitude)) ++ units.getD magnitude "")

/-- The ledger invariant of spec §3: `total_exp` equals the sum over all
guilds in `servers` of (cumulative experience required to reach that guild's
`level`) plus that guild's `current_exp`. -/
def contribSum (req : Nat → Int) : List (String × GuildStanding) → Int
  | [] => 0
  | (_, st) :: rest => (cumExp req st.level.toNat + st.current_exp) + contribSum req rest

/-- A user record satisfies the spec §3 ledger invariant for the experience
curve `req`. -/
def ledgerInvariant (req : Nat → Int) (u : UserRecord) : Prop :=
  u.total_exp = contribSum req u.servers

instance ledgerInvariantDecidable (req : Nat → Int) (u : UserRecord) :
    Decidable (ledgerInvariant req u) := by
  unfold ledgerInvariant
  infer_instance

/-- A concrete experience curve matching the spec §8 scenario:
`required_exp(0) = 100`, `required_exp(1) = 150`, and `level_exp(4) = 600`
(here `100 + 150 + 170 + 180`). -/
def reqEx : Nat → Int
  | 0 => 100
  | 1 => 150
  | 2 => 170
  | 3 => 180
  | _ + 4 => 200

/-- The spec §8 scenario user: `total_exp = 500`, level 2 and
`current_exp = 30` in guild "100". -/
def scenarioUser : UserRecord :=
  ⟨"42", 500, [("100", ⟨2, 30⟩)], none⟩

/-- The guild standing a database holds for a user: the record's `servers`
entry for the guild, when both exist. -/
def standingOf (db : Db) (uid gid : String) : Option GuildStanding :=
  match alookup db uid with
  | none => none
  | some u => alookup u.servers gid

/-- A flat experience curve used for concrete counterexamples:
`required_exp(i) = 100` for every `i`. -/
def req100 : Nat → Int :=
  fun _ => 100

/-- A record satisfying the ledger invariant for `req100`:
`total_exp = 130 = level_exp(1) + current_exp = 100 + 30` in guild "100". -/
def c1User : UserRecord :=
  ⟨"7", 130, [("100", ⟨1, 30⟩)], none⟩

/-- A record satisfying the ledger invariant for `reqEx`:
`total_exp = 280 = (100 + 150) + 30` at level 2 in guild "100". -/
def invUser : UserRecord :=
  ⟨"8", 280, [("100", ⟨2, 30⟩)], none⟩

/-- A member record for the bulk-reset failing input: `total_exp = 500`,
level 2 and `current_exp = 30` in guild "100". -/
def c4User : UserRecord :=
  ⟨"9", 500, [("100", ⟨2, 30⟩)], none⟩

/-- Claim C2: for a non-bot user whose record holds a standing for the guild,
`set-level` to a non-negative target `N` persists
`total_exp = total_exp_before - old_server_exp - old_current_exp +
level_exp(N)`, with `old_server_exp` the sum of `required_exp i` for `i`
below the previous guild level, and zeroes the guild's progress. -/
theorem setlevel_total_exp_delta (req lvlExp : Nat → Int) (db : Db) (uid gid : String)
    (N : Int) (u : UserRecord) (st : GuildStanding)
    (hu : alookup db uid = some u) (hst : alookup u.servers gid = some st) (hN : 0 ≤ N) :
    alookup (setlevel req lvlExp db uid gid false N).1 uid =
      some { u with
             total_exp :=
               u.total_exp - cumExp req st.level.toNat - st.current_exp + lvlExp N.toNat,
             servers := aset u.servers gid ⟨N, 0⟩ } := by
  have hcr : create_user db uid gid = db := by
    simp only [create_user, hu, hst]
  simp only [setlevel, Bool.false_eq_true, if_false, hcr, hu, if_neg (not_lt.mpr hN), hst]
  exact alookup_aset_self ..

/-- Witness for C2, the spec §8 scenario: `total_exp = 500`, guild level 2
with `required_exp(0) = 100`, `required_exp(1) = 150`, `current_exp = 30`;
`set-level(guild, 4)` with `level_exp(4) = 600` persists
`total_exp = 500 - 250 - 30 + 600 = 820`, level 4, `current_exp = 0`. -/
theorem setlevel_total_exp_delta_witness :
    alookup (setlevel reqEx (level_exp reqEx) [("42", scenarioUser)] "42" "100" false 4).1 "42" =
      some { scenarioUser with total_exp := 820, servers := [("100", ⟨4, 0⟩)] } := by
  have h :=
    setlevel_total_exp_delta reqEx (level_exp reqEx) [("42", scenarioUser)] "42" "100" 4
      scenarioUser ⟨2, 30⟩ (by decide) (by decide) (by decide)
  exact h.trans (by decide)

/-- Claim C3: for every non-negative target level and non-bot user with a
ledger record, after `set-level` the guild's persisted standing is exactly
level `N` with `current_exp = 0`. -/
theorem setlevel_sets_level_and_zeroes_exp (req lvlExp : Nat → Int) (db : Db)
    (uid gid : String) (N : Int) (u : UserRecord)
    (hu : alookup db uid = some u) (hN : 0 ≤ N) :
    standingOf (setlevel req lvlExp db uid gid false N).1 uid gid = some ⟨N, 0⟩ := by
  cases hst : alookup u.servers gid with
  | some st =>
    have hcr : create_user db uid gid = db := by
      simp only [create_user, hu, hst]
    simp only [setlevel, Bool.false_eq_true, if_false, hcr, hu, if_neg (not_lt.mpr hN), hst,
      standingOf, alookup_aset_self]
  | none =>
    have hcr : create_user db uid gid =
        aset db uid { u with servers := aset u.servers gid ⟨0, 0⟩ } := by
      simp only [create_user, hu, hst]
    simp only [setlevel, Bool.false_eq_true, if_false, hcr, alookup_aset_self,
      if_neg (not_lt.mpr hN), standingOf, aset_aset]

/-- Witness for C3: setting level 4 for user "42" in guild "100" leaves the
guild standing at level 4 with zero progress. -/
theorem setlevel_sets_level_and_zeroes_exp_witness :
    standingOf (setlevel reqEx (level_exp reqEx) [("42", scenarioUser)] "42" "100" false 4).1
      "42" "100" = some ⟨4, 0⟩ :=
  setlevel_sets_level_and_zeroes_exp reqEx (level_exp reqEx) [("42", scenarioUser)] "42" "100" 4
    scenarioUser (by decide) (by decide)

/-- Claim C5 (amended): for a user who already has a record with a standing
for the guild, `set-level` with a negative target level reports the
invalid-level condition and leaves the database — hence the record —
unchanged. (As stated, the claim fails for a user with no record: the
ensure-user-exists step of users.py line 98 runs before the validation of
line 101 and creates a record; see the counterexample.) -/
theorem setlevel_negative_no_mutation (req lvlExp : Nat → Int) (db : Db) (uid gid : String)
    (N : Int) (u : UserRecord) (st : GuildStanding)
    (hu : alookup db uid = some u) (hst : alookup u.servers gid = some st) (hN : N < 0) :
    setlevel req lvlExp db uid gid false N = (db, .invalidLevel) := by
  have hcr : create_user db uid gid = db := by
    simp only [create_user, hu, hst]
  simp only [setlevel, Bool.false_eq_true, if_false, hcr, hu, if_pos hN]

/-- Witness for C5 (amended): `set-level(-1)` on the scenario user reports an
invalid level and changes nothing. -/
theorem setlevel_negative_no_mutation_witness :
    setlevel reqEx (level_exp reqEx) [("42", scenarioUser)] "42" "100" false (-1) =
      ([("42", scenarioUser)], .invalidLevel) :=
  setlevel_negative_no_mutation reqEx (level_exp reqEx) [("42", scenarioUser)] "42" "100" (-1)
    scenarioUser ⟨2, 30⟩ (by decide) (by decide) (by decide)

/-- Counterexample for C5 as stated: invoking `set-level(-1)` for a user with
NO ledger record still mutates the store — the ensure-user-exists call of
users.py line 98 runs before the negative-level validation of line 101 and
creates a zeroed record, so "the user's persisted record (including its
existence) is unchanged" fails. -/
theorem setlevel_negative_creates_record :
    alookup ([] : Db) "42" = none ∧
    (setlevel reqEx (level_exp reqEx) [] "42" "100" false (-1)).2 =
      SetlevelOutcome.invalidLevel ∧
    alookup (setlevel reqEx (level_exp reqEx) [] "42" "100" false (-1)).1 "42" =
      some ⟨"42", 0, [("100", ⟨0, 0⟩)], none⟩ := by
  decide

/-- Claim C7: the bulk reset skips members flagged as bots and members with
no existing ledger record — for such a member the iteration issues no write
and the persisted collection is unchanged. -/
theorem resetranks_skips_bots_and_recordless (db : Db) (gid uid : String) (b : Bool)
    (h : b = true ∨ alookup db uid = none) :
    resetMember db gid uid b = db := by
  cases h with
  | inl hb =>
    subst hb
    simp [resetMember]
  | inr hn =>
    cases b with
    | true => simp [resetMember]
    | false => simp [resetMember, hn]

/-- Witness for C7: a bot member on an empty collection is skipped. -/
theorem resetranks_skips_bots_and_recordless_witness :
    resetMember [] "100" "9" true = [] :=
  resetranks_skips_bots_and_recordless [] "100" "9" true (Or.inl rfl)

/-- Claim C8: `xp-ban` with duration `dur` (seconds) persists
`chat_block = now + dur`, a timestamp `dur` seconds past the sampled host
clock value `now`, and touches nothing else in the record. -/
theorem xpban_sets_future_chat_block (db : Db) (uid : String) (now dur : Rat)
    (u : UserRecord) (hu : alookup db uid = some u) :
    alookup (xpban db uid now dur) uid = some { u with chat_block := some (now + dur) } := by
  simp only [xpban, hu]
  exact alookup_aset_self ..

/-- Witness for C8: banning user "42" for 60 seconds at clock value 1000
persists `chat_block = 1060`. -/
theorem xpban_sets_future_chat_block_witness :
    alookup (xpban [("42", scenarioUser)] "42" 1000 60) "42" =
      some { scenarioUser with chat_block := some 1060 } := by
  have h := xpban_sets_future_chat_block [("42", scenarioUser)] "42" 1000 60 scenarioUser
    (by decide)
  exact h.trans (by norm_num)

/-- Claim C9: when the source reports `max_pages = m > 0`,
`show_checked_page` leaves `current_page` inside `[0, m)`: a request at or
past the last page wraps to page 0, a request below page 0 wraps to page
`m - 1`, and an in-range request is shown as is. -/
theorem show_checked_page_wraps (v : PageView) (m page_number : Int) (hm : 0 < m) :
    (0 ≤ (show_checked_page v (some m) page_number).current_page ∧
      (show_checked_page v (some m) page_number).current_page < m) ∧
    (m ≤ page_number → (show_checked_page v (some m) page_number).current_page = 0) ∧
    (page_number < 0 → (show_checked_page v (some m) page_number).current_page = m - 1) := by
  simp only [show_checked_page, show_page]
  split_ifs <;> dsimp only <;> refine ⟨⟨?_, ?_⟩, fun h1 => ?_, fun h2 => ?_⟩ <;> omega

/-- Witness for C9: with 3 pages, requesting page 5 wraps to page 0. -/
theorem show_checked_page_wraps_witness :
    (0 ≤ (show_checked_page ⟨0⟩ (some 3) 5).current_page ∧
      (show_checked_page ⟨0⟩ (some 3) 5).current_page < 3) ∧
    ((3 : Int) ≤ 5 → (show_checked_page ⟨0⟩ (some 3) 5).current_page = 0) ∧
    ((5 : Int) < 0 → (show_checked_page ⟨0⟩ (some 3) 5).current_page = 3 - 1) :=
  show_checked_page_wraps ⟨0⟩ 3 5 (by decide)

/-- Claim C4, failing-input evaluation: a member with `total_exp = 500`,
level 2 and `current_exp = 30` in guild "100" is bulk-reset to level 0 and
`current_exp = 0` — but `total_exp` is persisted UNCHANGED at 500, not at
`500 - 30 = 470` as specified, because the guild lookup of users.py lines
65-67 reads `userinfo.get(str(ctx.guild.id))` at the document's top level
(whose keys are the four field names) instead of `userinfo["servers"]`, so
the subtracted contribution is always the default 0. -/
theorem resetranks_total_exp_not_reduced :
    alookup (resetMember [("9", c4User)] "100" "9" false) "9" =
      some { c4User with total_exp := 500, servers := [("100", ⟨0, 0⟩)] } ∧
    c4User.total_exp - 30 = 470 ∧ (500 : Int) ≠ 470 := by
  decide

/-- Counterexample for C1: the bulk reset does not preserve the ledger
invariant. A record with `total_exp = 130`, level 1 and `current_exp = 30`
in guild "100" satisfies the invariant for the flat curve `req100`
(`130 = 100 + 30`); after `resetranks` the standing is zeroed while
`total_exp` stays 130, and the invariant demands 0. -/
theorem resetranks_breaks_ledger_invariant :
    ledgerInvariant req100 c1User ∧
    alookup (resetMember [("7", c1User)] "100" "7" false) "7" =
      some { c1User with servers := [("100", ⟨0, 0⟩)] } ∧
    ¬ ledgerInvariant req100 { c1User with servers := [("100", ⟨0, 0⟩)] } := by
  decide

theorem contribSum_aset_some (req : Nat → Int) (s : List (String × GuildStanding))
    (gid : String) (st v : GuildStanding) (h : alookup s gid = some st) :
    contribSum req (aset s gid v) =
      contribSum req s - (cumExp req st.level.toNat + st.current_exp)
        + (cumExp req v.level.toNat + v.current_exp) := by
  induction s with
  | nil => simp [alookup] at h
  | cons hd tl ih =>
    obtain ⟨k, w⟩ := hd
    by_cases hk : k = gid
    · subst hk
      simp only [alookup, if_true] at h
      injection h with h
      subst h
      simp only [aset, if_true, contribSum]
      ring
    · simp only [alookup, if_neg hk] at h
      simp only [aset, if_neg hk, contribSum, ih h]
      ring

theorem contribSum_aset_none (req : Nat → Int) (s : List (String × GuildStanding))
    (gid : String) (v : GuildStanding) (h : alookup s gid = none) :
    contribSum req (aset s gid v) =
      contribSum req s + (cumExp req v.level.toNat + v.current_exp) := by
  induction s with
  | nil =>
    simp only [aset, contribSum]
    ring
  | cons hd tl ih =>
    obtain ⟨k, w⟩ := hd
    by_cases hk : k = gid
    · subst hk
      simp [alookup] at h
    · simp only [alookup, if_neg hk] at h
      simp only [aset, if_neg hk, contribSum, ih h]
      ring

/-- Claim C1 (amended): `set-level` preserves the spec §3 ledger invariant —
with the experience-curve collaborator's `level_exp` the cumulative sum of
`required_exp`, a target record satisfying the invariant before the command
satisfies it after, for every target level and bot flag. (The bulk reset does
NOT preserve the invariant; see the counterexample.) -/
theorem setlevel_preserves_ledger_invariant (req : Nat → Int) (db : Db) (uid gid : String)
    (b : Bool) (N : Int) (u u' : UserRecord)
    (hu : alookup db uid = some u) (hInv : ledgerInvariant req u)
    (hu' : alookup (setlevel req (level_exp req) db uid gid b N).1 uid = some u') :
    ledgerInvariant req u' := by
  cases b with
  | true =>
    simp only [setlevel, if_true, hu, Option.some.injEq] at hu'
    exact hu' ▸ hInv
  | false =>
    cases hst : alookup u.servers gid with
    | some st =>
      have hcr : create_user db uid gid = db := by
        simp only [create_user, hu, hst]
      by_cases hN : N < 0
      · simp only [setlevel, Bool.false_eq_true, if_false, hcr, hu, if_pos hN,
          Option.some.injEq] at hu'
        exact hu' ▸ hInv
      · simp only [setlevel, Bool.false_eq_true, if_false, hcr, hu, if_neg hN, hst,
          alookup_aset_self, Option.some.injEq] at hu'
        subst hu'
        unfold ledgerInvariant at hInv ⊢
        dsimp only
        rw [contribSum_aset_some req u.servers gid st ⟨N, 0⟩ hst, hInv]
        unfold level_exp
        dsimp only
        ring
    | none =>
      have hcr : create_user db uid gid =
          aset db uid { u with servers := aset u.servers gid ⟨0, 0⟩ } := by
        simp only [create_user, hu, hst]
      have hInv1 : ledgerInvariant req { u with servers := aset u.servers gid ⟨0, 0⟩ } := by
        unfold ledgerInvariant at hInv ⊢
        dsimp only
        rw [contribSum_aset_none req u.servers gid ⟨0, 0⟩ hst, hInv]
        dsimp only
        simp [cumExp]
      by_cases hN : N < 0
      · simp only [setlevel, Bool.false_eq_true, if_false, hcr, alookup_aset_self,
          if_pos hN, Option.some.injEq] at hu'
        exact hu' ▸ hInv1
      · simp only [setlevel, Bool.false_eq_true, if_false, hcr, alookup_aset_self,
          if_neg hN, Option.some.injEq] at hu'
        subst hu'
        unfold ledgerInvariant at hInv ⊢
        dsimp only
        rw [contribSum_aset_some req (aset u.servers gid ⟨0, 0⟩) gid ⟨0, 0⟩ ⟨N, 0⟩
            (alookup_aset_self ..),
          contribSum_aset_none req u.servers gid ⟨0, 0⟩ hst, hInv]
        unfold level_exp
        dsimp only
        simp only [Int.toNat_zero, cumExp]
        ring

/-- Witness for C1 (amended): the invariant-satisfying record with
`total_exp = 280` at level 2, `current_exp = 30` under `reqEx` still
satisfies the invariant after `set-level(4)`: `280 - 250 - 30 + 600 = 600 =
level_exp(4)`. -/
theorem setlevel_preserves_ledger_invariant_witness :
    ledgerInvariant reqEx ⟨"8", 600, [("100", ⟨4, 0⟩)], none⟩ :=
  setlevel_preserves_ledger_invariant reqEx [("8", invUser)] "8" "100" false 4 invUser
    ⟨"8", 600, [("100", ⟨4, 0⟩)], none⟩ (by decide) (by decide) (by decide)

theorem setlevel_run_shape (req lvlExp : Nat → Int) (db : Db) (uid gid : String) (N : Int)
    (hN : 0 ≤ N) :
    ∃ D u' S, setlevel req lvlExp db uid gid false N = (aset D uid u', .success) ∧
      u'.servers = aset S gid ⟨N, 0⟩ := by
  cases hu : alookup db uid with
  | none =>
    have hcr : create_user db uid gid = aset db uid ⟨uid, 0, [(gid, ⟨0, 0⟩)], none⟩ := by
      simp only [create_user, hu]
    simp only [setlevel, Bool.false_eq_true, if_false, hcr, alookup_aset_self,
      if_neg (not_lt.mpr hN)]
    rw [show alookup [(gid, (⟨0, 0⟩ : GuildStanding))] gid = some ⟨0, 0⟩ from by
      simp [alookup]]
    exact ⟨_, _, _, rfl, rfl⟩
  | some u =>
    cases hst : alookup u.servers gid with
    | some st =>
      have hcr : create_user db uid gid = db := by
        simp only [create_user, hu, hst]
      simp only [setlevel, Bool.false_eq_true, if_false, hcr, hu, if_neg (not_lt.mpr hN), hst]
      exact ⟨_, _, _, rfl, rfl⟩
    | none =>
      have hcr : create_user db uid gid =
          aset db uid { u with servers := aset u.servers gid ⟨0, 0⟩ } := by
        simp only [create_user, hu, hst]
      simp only [setlevel, Bool.false_eq_true, if_false, hcr, alookup_aset_self,
        if_neg (not_lt.mpr hN), alookup_aset_self]
      exact ⟨_, _, _, rfl, rfl⟩

theorem setlevel_fixed (req : Nat → Int) (db : Db) (uid gid : String) (N : Int)
    (hN : 0 ≤ N) (u : UserRecord)
    (hu : alookup db uid = some u) (hst : alookup u.servers gid = some ⟨N, 0⟩)
    (hs : aset u.servers gid ⟨N, 0⟩ = u.servers) (hdb : aset db uid u = db) :
    setlevel req (level_exp req) db uid gid false N = (db, .success) := by
  have hcr : create_user db uid gid = db := by
    simp only [create_user, hu, hst]
  simp only [setlevel, Bool.false_eq_true, if_false, hcr, hu, if_neg (not_lt.mpr hN), hst]
  have hrec :
      ({ u with
         total_exp := u.total_exp - cumExp req ((⟨N, 0⟩ : GuildStanding).level.toNat)
           - (⟨N, 0⟩ : GuildStanding).current_exp + level_exp req N.toNat,
         servers := aset u.servers gid ⟨N, 0⟩ } : UserRecord) = u := by
    rw [hs]
    have ht : u.total_exp - cumExp req ((⟨N, 0⟩ : GuildStanding).level.toNat)
        - (⟨N, 0⟩ : GuildStanding).current_exp + level_exp req N.toNat = u.total_exp := by
      unfold level_exp
      dsimp only
      ring
    rw [ht]
  rw [hrec, hdb]

/-- Claim C6: applying `set-level(level=N)` twice in a row yields the same
final persisted state (and reported outcome) as applying it once, for every
non-negative `N` — with the experience-curve collaborator's `level_exp` the
cumulative sum of `required_exp`, per spec §6. -/
theorem setlevel_idempotent (req : Nat → Int) (db : Db) (uid gid : String) (b : Bool)
    (N : Int) (hN : 0 ≤ N) :
    setlevel req (level_exp req) (setlevel req (level_exp req) db uid gid b N).1 uid gid b N =
      setlevel req (level_exp req) db uid gid b N := by
  cases b with
  | true => simp [setlevel]
  | false =>
    obtain ⟨D, u', S, hrun, hS⟩ := setlevel_run_shape req (level_exp req) db uid gid N hN
    rw [hrun]
    exact setlevel_fixed req (aset D uid u') uid gid N hN u' (alookup_aset_self ..)
      (by rw [hS]; exact alookup_aset_self ..) (by rw [hS, aset_aset]) (aset_aset ..)

/-- Witness for C6: `set-level(4)` twice on the scenario user equals
`set-level(4)` once. -/
theorem setlevel_idempotent_witness :
    setlevel reqEx (level_exp reqEx)
        (setlevel reqEx (level_exp reqEx) [("42", scenarioUser)] "42" "100" false 4).1
        "42" "100" false 4 =
      setlevel reqEx (level_exp reqEx) [("42", scenarioUser)] "42" "100" false 4 :=
  setlevel_idempotent reqEx [("42", scenarioUser)] "42" "100" false 4 (by decide)

theorem dashSigned_dash_append (a b : String) :
    HumanizeResult.dashSigned (.str ("-" ++ a ++ b)) = true := by
  simp only [HumanizeResult.dashSigned]
  rw [String.data_append, String.data_append]
  rfl

/-- Claim C10 (amended): `_humanize_number` returns the Python integer 0 for
input 0; for every nonzero number it returns a string; whenever the
float-computed magnitude `int(floor(log(|n|, 1000.0)))` reaches 6 — which the
host arithmetic guarantees for every `|n| ≥ 1000^6` and also produces for
some `|n|` just below `1000^6` — it returns the fixed string ">999Q" with no
sign; and the string is prefixed with "-" exactly for the negative numbers
whose float-computed magnitude stays below 6. Stated for an arbitrary
magnitude function `mag`, hence for the one the host computes. -/
theorem humanize_number_props (mag : Nat → Nat) (n : Int) :
    (n = 0 → _humanize_number mag n = .int 0) ∧
    (n ≠ 0 → (_humanize_number mag n).isStr = true) ∧
    (n ≠ 0 → 6 ≤ mag n.natAbs → _humanize_number mag n = .str ">999Q") ∧
    (n < 0 → mag n.natAbs < 6 → (_humanize_number mag n).dashSigned = true) ∧
    (n < 0 → 6 ≤ mag n.natAbs → (_humanize_number mag n).dashSigned = false) := by
  refine ⟨fun h => ?_, fun h => ?_, fun h h6 => ?_, fun h1 hlt => ?_, fun h1 h6 => ?_⟩
  · simp [_humanize_number, h]
  · simp only [_humanize_number, if_neg h]
    split
    · rfl
    · rfl
  · simp only [_humanize_number, if_neg h]
    rw [if_pos (by simpa using h6)]
    rfl
  · simp only [_humanize_number, if_neg h1.ne]
    rw [if_neg (by simpa using not_le.mpr hlt), if_pos h1]
    exact dashSigned_dash_append _ _
  · simp only [_humanize_number, if_neg h1.ne]
    rw [if_pos (by simpa using h6)]
    rfl

/-- Witness for C10 (amended): under a magnitude table mapping everything to
0, input 0 yields the integer 0 and -5 yields a dash-prefixed string; under a
table mapping everything to 6, -5 yields the unsigned ">999Q". -/
theorem humanize_number_props_witness :
    _humanize_number (fun _ => 0) 0 = .int 0 ∧
    (_humanize_number (fun _ => 0) (-5)).dashSigned = true ∧
    _humanize_number (fun _ => 6) (-5) = .str ">999Q" :=
  ⟨(humanize_number_props (fun _ => 0) 0).1 rfl,
   (humanize_number_props (fun _ => 0) (-5)).2.2.2.1 (by decide) (by decide),
   (humanize_number_props (fun _ => 6) (-5)).2.2.1 (by decide) (by decide)⟩

/-- Counterexample for C10 as stated: `-(10^19)` is negative, yet
`_humanize_number` returns the fixed string ">999Q" with no "-" prefix — the
`>999Q` branch (def_imgen_utils.py line 162) interpolates no sign. The
magnitude parameter is instantiated at the exact `Nat.log 1000`, which agrees
with the host float computation at `10^19`: the computed log ratio there is
about 6.333, far from every rounding boundary, so both yield 6. -/
theorem humanize_large_negative_not_dash_signed :
    _humanize_number (Nat.log 1000) (-(10 ^ 19)) = .str ">999Q" ∧
    HumanizeResult.dashSigned (.str ">999Q") = false ∧
    ((-(10 ^ 19) : Int)) < 0 := by
  refine ⟨?_, by decide, by decide⟩
  have habs : ((-(10 ^ 19) : Int)).natAbs = 10 ^ 19 := by decide
  have hne : (-(10 ^ 19) : Int) ≠ 0 := by decide
  have h6 : 6 ≤ Nat.log 1000 ((-(10 ^ 19) : Int)).natAbs := by
    rw [habs]
    exact (Nat.pow_le_iff_le_log (by norm_num) (by norm_num)).mp (by norm_num)
  simp only [_humanize_number, if_neg hne]
  rw [if_pos (by simpa using h6)]
  rfl

end F10
